import Mathlib

/-!
Verification of a small HTTP API backend (FastAPI + document store).

The source consists of `main.py` (request handlers and the serialization
helper) and `schemas.py` (entity shapes).  The document-store adapter
(`database.py`: `db`, `create_document`, `get_documents`) is not part of the
provided sources; it is modelled from the specification of the Document
Store Adapter (spec §4.1): collection-scoped insert assigning a fresh
identifier returned in string form, and equality-filter find.

Documents are modelled as association lists from field names to a `Value`
type covering the value shapes this program stores (strings, booleans,
timestamps, object identifiers, string lists, and Python `None`).
Timestamps are abstract ticks (`Nat`); `datetime.utcnow()` becomes an
explicit `now` parameter of the create handler.  Python dictionaries have
unique keys; documents built by the program always do.
-/

/-- Values stored in document fields. `vId` models a BSON ObjectId,
`vDatetime` a datetime (abstract tick count), `vNull` Python `None`. -/
inductive Value where
  | vNull : Value
  | vStr : String → Value
  | vBool : Bool → Value
  | vDatetime : Nat → Value
  | vId : Nat → Value
  | vList : List String → Value
deriving DecidableEq, Repr

/-- A stored document / Python dict: association list with unique keys. -/
abbrev Doc := List (String × Value)

/-- Field access `d.get(k)`: first binding for `k`, if any. -/
def dGet (d : Doc) (k : String) : Option Value :=
  match d with
  | [] => none
  | (k', v) :: rest => if k' = k then some v else dGet rest k

/-- Dict assignment `d[k] = v`: overwrites the binding in place when the key
is present (keys are unique in a dict), otherwise appends the new binding at
the end (Python dict insertion order). -/
def dictSet (d : Doc) (k : String) (v : Value) : Doc :=
  match d with
  | [] => [(k, v)]
  | (k', w) :: rest =>
    if k' = k then (k', v) :: rest else (k', w) :: dictSet rest k v

/-- Dict removal `d.pop(k)` (the removal part; keys are unique in a dict). -/
def dictPop (d : Doc) (k : String) : Doc :=
  match d with
  | [] => []
  | (k', v) :: rest => if k' = k then dictPop rest k else (k', v) :: dictPop rest k

/-- Python truthiness of a stored value (`None`, `False`, `""`, `[]` are
falsy; datetimes and ObjectIds are always truthy). -/
def pyFalsy : Value → Bool
  | .vNull => true
  | .vBool b => !b
  | .vStr s => s.isEmpty
  | .vDatetime _ => false
  | .vId _ => false
  | .vList xs => xs.isEmpty

/-- Python `a or b`. -/
def pyOr (a b : Value) : Value :=
  if pyFalsy a then b else a

/-- The string form of an ObjectId (`str(ObjectId)`), injective. -/
def idString (n : Nat) : String :=
  "oid:" ++ toString n

/-- `datetime.isoformat()`, modelled as an injective rendering of the tick. -/
def isoString (t : Nat) : String :=
  "iso:" ++ toString t

/-- Python `str(v)` on the values this program stores. -/
def pyStr : Value → String
  | .vNull => "None"
  | .vStr s => s
  | .vBool b => if b then "True" else "False"
  | .vDatetime t => isoString t
  | .vId n => idString n
  | .vList _ => "[...]"

/-- One step of the isoformat conversion loop in `serialize_doc`: a value
with an `isoformat` attribute (a datetime) becomes its ISO-8601 string;
everything else is left unchanged. -/
def convertValue : Value → Value
  | .vDatetime t => .vStr (isoString t)
  | v => v

/-- `serialize_doc` from `main.py`: copy the document, rename `_id` to `id`
converted to its string form, then convert every datetime-valued field to
its ISO-8601 string. -/
def serialize_doc (doc : Doc) : Doc :=
  let d := match dGet doc "_id" with
    | some idv => dictSet (dictPop doc "_id") "id" (.vStr (pyStr idv))
    | none => doc
  d.map (fun p => (p.1, convertValue p.2))

/-! ## Document store adapter

Modelled from the spec (§4.1), since `database.py` is not among the
provided sources: collections are named lists of documents, `insert`
assigns a fresh identifier and returns it as a string, `find` filters by
field equality, `findOne` returns the first match or an explicit absence.
-/

/-- Store state: named collections plus the next fresh identifier. -/
structure Store where
  colls : List (String × List Doc)
  nextId : Nat
deriving DecidableEq, Repr

/-- The documents of a named collection (empty if absent). -/
def getColl (cs : List (String × List Doc)) (c : String) : List Doc :=
  match cs with
  | [] => []
  | (k, ds) :: rest => if k = c then ds else getColl rest c

/-- Append a document to a named collection, creating it if absent. -/
def collInsert (cs : List (String × List Doc)) (c : String) (d : Doc) :
    List (String × List Doc) :=
  match cs with
  | [] => [(c, [d])]
  | (k, ds) :: rest =>
    if k = c then (k, ds ++ [d]) :: rest else (k, ds) :: collInsert rest c d

/-- Equality filter match (spec §4.1 `find`): every filter field must be
present with exactly the given value. -/
def matchesF (d : Doc) (f : List (String × Value)) : Bool :=
  f.all (fun kv => dGet d kv.1 == some kv.2)

/-- Modelled from the spec: `get_documents` of the missing `database.py` —
all documents of the collection matching the equality filter. -/
def get_documents (s : Store) (c : String) (f : List (String × Value)) :
    List Doc :=
  (getColl s.colls c).filter (fun d => matchesF d f)

/-- Modelled from the spec: `db[c].find_one(f)` — the first matching
document, or an explicit absence. -/
def find_one (s : Store) (c : String) (f : List (String × Value)) :
    Option Doc :=
  (get_documents s c f).head?

/-- Modelled from the spec: `create_document` of the missing `database.py` —
serializes the record's fields to a document, assigns a new unique
identifier, persists it in the named collection, and returns the identifier
as a string. -/
def create_document (s : Store) (c : String) (rec : Doc) : String × Store :=
  (idString s.nextId,
   { colls := collInsert s.colls c (("_id", .vId s.nextId) :: rec),
     nextId := s.nextId + 1 })

/-- An HTTP error raised by a handler (`HTTPException`). -/
structure HTTPException where
  status_code : Nat
  detail : String
deriving DecidableEq, Repr

/-! ## Request handlers (`main.py`) -/

/-- Signup request body. -/
structure SignUpPayload where
  name : String
  email : String
  password_hash : String
  salt : String
deriving DecidableEq, Repr

/-- Signin request body. -/
structure SignInPayload where
  email : String
  password_hash : String
deriving DecidableEq, Repr

/-- The `User(...)` record built by the signup handler (fields per
`schemas.py`). -/
def userRecord (p : SignUpPayload) : Doc :=
  [("name", .vStr p.name), ("email", .vStr p.email),
   ("password_hash", .vStr p.password_hash), ("salt", .vStr p.salt)]

/-- `POST /auth/signup`: reject with 400 if a user with the email exists,
otherwise insert the User record and answer id, email, name.  A raised
`HTTPException` leaves the store unchanged, so the handler returns the
resulting store in both cases. -/
def signup (s : Store) (p : SignUpPayload) :
    Except HTTPException Doc × Store :=
  match find_one s "user" [("email", .vStr p.email)] with
  | some _ => (.error ⟨400, "Email already registered"⟩, s)
  | none =>
    let r := create_document s "user" (userRecord p)
    (.ok [("id", .vStr r.1), ("email", .vStr p.email),
          ("name", .vStr p.name)], r.2)

/-- `POST /auth/signin`: 404 when no user has the email, 401 when the stored
`password_hash` (fetched with `.get`, so possibly absent) differs from the
supplied one, otherwise id (string form of `_id`), email, name.  Dict
indexing `existing[k]` is modelled with a `vNull` default; stored user
documents always carry `_id` and `email`. -/
def signin (s : Store) (p : SignInPayload) : Except HTTPException Doc :=
  match find_one s "user" [("email", .vStr p.email)] with
  | none => .error ⟨404, "User not found"⟩
  | some existing =>
    if dGet existing "password_hash" ≠ some (.vStr p.password_hash) then
      .error ⟨401, "Invalid credentials"⟩
    else
      .ok [("id", .vStr (pyStr ((dGet existing "_id").getD .vNull))),
           ("email", (dGet existing "email").getD .vNull),
           ("name", (dGet existing "name").getD .vNull)]

/-- The sort key of `list_posts`:
`x.get("published_at") or x.get("created_at")`. -/
def sortKey (d : Doc) : Value :=
  pyOr ((dGet d "published_at").getD .vNull) ((dGet d "created_at").getD .vNull)

/-- The tick of a datetime sort key (Python compares the datetimes
themselves; in the regimes considered every key is a datetime). -/
def keyTime (d : Doc) : Nat :=
  match sortKey d with
  | .vDatetime t => t
  | _ => 0

/-- `GET /blog`: all documents with `published = True`, sorted stably on the
sort key in descending order (`list.sort(key=..., reverse=True)` is a
stable descending sort; `List.insertionSort` with the reflexive descending
relation is stable the same way), each serialized. -/
def list_posts (s : Store) : List Doc :=
  ((get_documents s "blogpost" [("published", .vBool true)]).insertionSort
    (fun a b => keyTime b ≤ keyTime a)).map serialize_doc

/-- `GET /blog/{slug}`: the first document with the slug, serialized;
404 when none exists. -/
def get_post (s : Store) (slug : String) : Except HTTPException Doc :=
  match find_one s "blogpost" [("slug", .vStr slug)] with
  | none => .error ⟨404, "Post not found"⟩
  | some post => .ok (serialize_doc post)

/-- Blog create request body. -/
structure CreatePostPayload where
  title : String
  slug : String
  excerpt : Option String
  content : String
  author : String
  tags : Option (List String)
  published : Bool
deriving DecidableEq, Repr

/-- An optional string field of a record (`None` becomes null). -/
def optStr : Option String → Value
  | some s => .vStr s
  | none => .vNull

/-- The `BlogPost(...)` record built by the create handler (fields per
`schemas.py`): `published_at` is the current time when `published` and
`None` otherwise; `tags` is `payload.tags or []`. -/
def postRecord (p : CreatePostPayload) (now : Nat) : Doc :=
  [("title", .vStr p.title), ("slug", .vStr p.slug),
   ("excerpt", optStr p.excerpt), ("content", .vStr p.content),
   ("author", .vStr p.author), ("tags", .vList (p.tags.getD [])),
   ("published", .vBool p.published),
   ("published_at", if p.published then .vDatetime now else .vNull)]

/-- `POST /blog`: reject with 400 if the slug exists; otherwise build the
BlogPost record, insert it and answer id and slug.  `now` stands for
`datetime.utcnow()`. -/
def create_post (s : Store) (p : CreatePostPayload) (now : Nat) :
    Except HTTPException Doc × Store :=
  match find_one s "blogpost" [("slug", .vStr p.slug)] with
  | some _ => (.error ⟨400, "Slug already exists"⟩, s)
  | none =>
    let r := create_document s "blogpost" (postRecord p now)
    (.ok [("id", .vStr r.1), ("slug", .vStr p.slug)], r.2)

/-! ## Health endpoint (`GET /test`) -/

/-- The store handle as the health endpoint sees it: either no connection
object (`db is None`), or a connection with an optional `name` attribute
and a `list_collection_names()` call that yields names or raises an
exception with a message. -/
inductive DbConn where
  | noConn : DbConn
  | conn : Option String → Except String (List String) → DbConn
deriving Repr

/-- The environment variables the health endpoint checks. -/
structure Env where
  database_url : Option String
  database_name : Option String
deriving DecidableEq, Repr

/-- The diagnostic object built by `test_database`. -/
structure HealthResponse where
  backend : String
  database : String
  database_url : String
  database_name : String
  connection_status : String
  collections : List String
deriving DecidableEq, Repr

/-- `GET /test`: a total diagnostic.  With a connection, report its name and
attempt `list_collection_names()`, keeping the first ten names on success
and folding a failure into a 50-character-truncated message; without one,
report the store as not initialized.  Finally the URL/name fields are
overwritten by the environment presence checks. -/
def test_database (c : DbConn) (env : Env) : HealthResponse :=
  let response : HealthResponse :=
    { backend := "✅ Running", database := "❌ Not Available",
      database_url := "None", database_name := "None",
      connection_status := "Not Connected", collections := [] }
  let response :=
    match c with
    | .conn nm res =>
      let response := { response with
        database := "✅ Available", database_url := "✅ Configured",
        database_name := nm.getD "✅ Connected",
        connection_status := "Connected" }
      match res with
      | .ok collections =>
        { response with
          collections := (collections.take 10)
          database := "✅ Connected & Working" }
      | .error e =>
        { response with database := ("⚠️  Connected but Error: " ++ e.take 50) }
    | .noConn => { response with database := "⚠️  Available but not initialized" }
  { response with
    database_url := if env.database_url.isSome then "✅ Set" else "❌ Not Set",
    database_name := if env.database_name.isSome then "✅ Set" else "❌ Not Set" }

/-! ## Helper lemmas -/

theorem dGet_append_some {d1 : Doc} {k : String} {v : Value} (d2 : Doc)
    (h : dGet d1 k = some v) : dGet (d1 ++ d2) k = some v := by
  induction d1 with
  | nil => simp [dGet] at h
  | cons p rest ih =>
    rw [List.cons_append]
    rw [dGet] at h ⊢
    by_cases hk : p.1 = k
    · simpa [hk] using h
    · rw [if_neg hk] at h ⊢
      exact ih h

theorem dGet_append_none {d1 : Doc} {k : String} (d2 : Doc)
    (h : dGet d1 k = none) : dGet (d1 ++ d2) k = dGet d2 k := by
  induction d1 with
  | nil => simp [dGet]
  | cons p rest ih =>
    rw [List.cons_append]
    rw [dGet] at h ⊢
    by_cases hk : p.1 = k
    · simp [hk] at h
    · rw [if_neg hk] at h ⊢
      exact ih h

theorem dGet_map_snd (g : Value → Value) (d : Doc) (k : String) :
    dGet (d.map (fun p => (p.1, g p.2))) k = (dGet d k).map g := by
  induction d with
  | nil => simp [dGet]
  | cons p rest ih =>
    rw [List.map_cons, dGet, dGet]
    by_cases hk : p.1 = k
    · simp [hk]
    · simp only [hk, if_false, ih]

theorem dGet_dictPop_self (d : Doc) (k : String) :
    dGet (dictPop d k) k = none := by
  induction d with
  | nil => simp [dictPop, dGet]
  | cons p rest ih =>
    obtain ⟨k', v⟩ := p
    rw [dictPop]
    by_cases hk : k' = k
    · rw [if_pos hk]; exact ih
    · rw [if_neg hk, dGet, if_neg hk]; exact ih

theorem dGet_dictPop_ne (d : Doc) {k k' : String} (h : k' ≠ k) :
    dGet (dictPop d k) k' = dGet d k' := by
  induction d with
  | nil => simp [dictPop]
  | cons p rest ih =>
    obtain ⟨q, v⟩ := p
    rw [dictPop, dGet]
    by_cases hq : q = k
    · have hq' : q ≠ k' := by rw [hq]; exact fun hc => h hc.symm
      rw [if_pos hq, if_neg hq']
      exact ih
    · rw [if_neg hq, dGet]
      by_cases hq' : q = k'
      · rw [if_pos hq', if_pos hq']
      · rw [if_neg hq', if_neg hq']
        exact ih

theorem dGet_dictSet_self (d : Doc) (k : String) (v : Value) :
    dGet (dictSet d k v) k = some v := by
  induction d with
  | nil => simp [dictSet, dGet]
  | cons p rest ih =>
    obtain ⟨q, w⟩ := p
    rw [dictSet]
    by_cases hq : q = k
    · rw [if_pos hq, dGet, if_pos hq]
    · rw [if_neg hq, dGet, if_neg hq]
      exact ih

theorem dGet_dictSet_ne (d : Doc) {k k' : String} (v : Value) (h : k' ≠ k) :
    dGet (dictSet d k v) k' = dGet d k' := by
  have hkk : k ≠ k' := fun hc => h hc.symm
  induction d with
  | nil => simp [dictSet, dGet, hkk]
  | cons p rest ih =>
    obtain ⟨q, w⟩ := p
    rw [dictSet, dGet]
    by_cases hq : q = k
    · have hq' : q ≠ k' := by rw [hq]; exact fun hc => h hc.symm
      rw [if_pos hq, dGet, if_neg hq', if_neg hq']
    · rw [if_neg hq, dGet]
      by_cases hq' : q = k'
      · rw [if_pos hq', if_pos hq']
      · rw [if_neg hq', if_neg hq']
        exact ih

theorem dictSet_of_absent {d : Doc} {k : String} (v : Value)
    (h : dGet d k = none) : dictSet d k v = d ++ [(k, v)] := by
  induction d with
  | nil => simp [dictSet]
  | cons p rest ih =>
    obtain ⟨q, w⟩ := p
    rw [dGet] at h
    by_cases hq : q = k
    · rw [if_pos hq] at h; simp at h
    · rw [if_neg hq] at h
      rw [dictSet, if_neg hq, List.cons_append, ih h]

theorem matchesF_single (d : Doc) (k : String) (v : Value) :
    matchesF d [(k, v)] = (dGet d k == some v) := by
  simp [matchesF]

theorem serialize_eq_of_id {doc : Doc} {v : Value}
    (h : dGet doc "_id" = some v) :
    serialize_doc doc =
      (dictSet (dictPop doc "_id") "id" (.vStr (pyStr v))).map
        (fun p => (p.1, convertValue p.2)) := by
  rw [serialize_doc, h]

theorem serialize_eq_of_no_id {doc : Doc} (h : dGet doc "_id" = none) :
    serialize_doc doc = doc.map (fun p => (p.1, convertValue p.2)) := by
  rw [serialize_doc, h]

theorem dGet_serialize_of_ne (doc : Doc) {k : String}
    (h1 : k ≠ "_id") (h2 : k ≠ "id") :
    dGet (serialize_doc doc) k = (dGet doc k).map convertValue := by
  cases h : dGet doc "_id" with
  | none => rw [serialize_eq_of_no_id h, dGet_map_snd]
  | some v =>
    rw [serialize_eq_of_id h, dGet_map_snd, dGet_dictSet_ne _ _ h2,
      dGet_dictPop_ne _ h1]

theorem dGet_serialize_uid (doc : Doc) :
    dGet (serialize_doc doc) "_id" = none := by
  cases h : dGet doc "_id" with
  | none => rw [serialize_eq_of_no_id h, dGet_map_snd, h]; rfl
  | some v =>
    rw [serialize_eq_of_id h, dGet_map_snd,
      dGet_dictSet_ne _ _ (by decide : ("_id" : String) ≠ "id"),
      dGet_dictPop_self]
    rfl

theorem dGet_serialize_id {doc : Doc} {v : Value}
    (h : dGet doc "_id" = some v) :
    dGet (serialize_doc doc) "id" = some (.vStr (pyStr v)) := by
  rw [serialize_eq_of_id h, dGet_map_snd, dGet_dictSet_self]
  rfl

theorem getColl_collInsert_self (cs : List (String × List Doc)) (c : String)
    (d : Doc) : getColl (collInsert cs c d) c = getColl cs c ++ [d] := by
  induction cs with
  | nil => simp [collInsert, getColl]
  | cons p rest ih =>
    rw [collInsert]
    by_cases hk : p.1 = c
    · simp [getColl, hk]
    · simp [getColl, hk, ih]

theorem getColl_collInsert_ne (cs : List (String × List Doc)) {c k : String}
    (d : Doc) (h : k ≠ c) : getColl (collInsert cs c d) k = getColl cs k := by
  have hck : c ≠ k := fun hc => h hc.symm
  induction cs with
  | nil => simp [collInsert, getColl, hck]
  | cons p rest ih =>
    obtain ⟨q, ds⟩ := p
    rw [collInsert]
    by_cases hq : q = c
    · rw [if_pos hq, getColl, getColl, hq, if_neg hck, if_neg hck]
    · rw [if_neg hq, getColl, getColl]
      by_cases hq' : q = k
      · rw [if_pos hq', if_pos hq']
      · rw [if_neg hq', if_neg hq']
        exact ih

theorem find_one_eq_none_iff (s : Store) (c : String)
    (f : List (String × Value)) :
    find_one s c f = none ↔
      ∀ d ∈ getColl s.colls c, matchesF d f = false := by
  rw [find_one, List.head?_eq_none_iff, get_documents, List.filter_eq_nil_iff]
  constructor
  · intro h d hd
    exact Bool.not_eq_true _ |>.mp (h d hd)
  · intro h d hd
    rw [h d hd]
    simp

theorem find_one_mem {s : Store} {c : String} {f : List (String × Value)}
    {d : Doc} (h : find_one s c f = some d) :
    d ∈ getColl s.colls c ∧ matchesF d f = true := by
  rw [find_one] at h
  have hmem : d ∈ get_documents s c f := by
    cases hf : get_documents s c f with
    | nil => rw [hf] at h; simp at h
    | cons x xs =>
      rw [hf] at h
      simp only [List.head?_cons, Option.some.injEq] at h
      rw [← h]
      exact List.mem_cons_self x xs
  rw [get_documents, List.mem_filter] at hmem
  exact hmem

theorem find_one_insert {s : Store} {c : String} {f : List (String × Value)}
    (d : Doc) (n : Nat) (hnone : find_one s c f = none)
    (hd : matchesF d f = true) :
    find_one ⟨collInsert s.colls c d, n⟩ c f = some d := by
  have hfil : (getColl s.colls c).filter (fun q => matchesF q f) = [] := by
    rw [find_one, List.head?_eq_none_iff, get_documents] at hnone
    exact hnone
  rw [find_one, get_documents]
  show ((getColl (collInsert s.colls c d) c).filter
    (fun q => matchesF q f)).head? = some d
  rw [getColl_collInsert_self, List.filter_append, hfil]
  simp [hd]

theorem find_one_single_none {s : Store} {c k : String} {v : Value}
    (h : ∀ d ∈ getColl s.colls c, dGet d k ≠ some v) :
    find_one s c [(k, v)] = none := by
  rw [find_one_eq_none_iff]
  intro d hd
  rw [matchesF_single]
  exact beq_eq_false_iff_ne.mpr (h d hd)

theorem find_one_single_isSome {s : Store} {c k : String} {v : Value}
    (h : ∃ d ∈ getColl s.colls c, dGet d k = some v) :
    ∃ w, find_one s c [(k, v)] = some w := by
  cases hf : find_one s c [(k, v)] with
  | some w => exact ⟨w, rfl⟩
  | none =>
    obtain ⟨d, hd, hv⟩ := h
    rw [find_one_eq_none_iff] at hf
    have := hf d hd
    rw [matchesF_single, hv] at this
    simp at this

theorem signup_free_eq (s : Store) (p : SignUpPayload)
    (h : ∀ u ∈ getColl s.colls "user", dGet u "email" ≠ some (.vStr p.email)) :
    signup s p =
      (.ok [("id", .vStr (idString s.nextId)), ("email", .vStr p.email),
            ("name", .vStr p.name)],
       ⟨collInsert s.colls "user" (("_id", .vId s.nextId) :: userRecord p),
        s.nextId + 1⟩) := by
  rw [signup, find_one_single_none h]
  rfl

theorem create_post_free_eq (s : Store) (p : CreatePostPayload) (now : Nat)
    (h : ∀ d ∈ getColl s.colls "blogpost",
      dGet d "slug" ≠ some (.vStr p.slug)) :
    create_post s p now =
      (.ok [("id", .vStr (idString s.nextId)), ("slug", .vStr p.slug)],
       ⟨collInsert s.colls "blogpost"
          (("_id", .vId s.nextId) :: postRecord p now),
        s.nextId + 1⟩) := by
  rw [create_post, find_one_single_none h]
  rfl

/-! ## Claims -/

/-- C1: a signup whose email matches no existing User record inserts a User
and returns the new identifier with the request's email and name; a signup
whose email matches an existing User record returns a Conflict error (400,
"Email already registered") regardless of the other field values. -/
theorem claim_C1_signup (s : Store) (p : SignUpPayload) :
    ((∀ u ∈ getColl s.colls "user",
        dGet u "email" ≠ some (.vStr p.email)) →
      signup s p =
        (.ok [("id", .vStr (idString s.nextId)), ("email", .vStr p.email),
              ("name", .vStr p.name)],
         ⟨collInsert s.colls "user" (("_id", .vId s.nextId) :: userRecord p),
          s.nextId + 1⟩) ∧
      getColl (collInsert s.colls "user"
          (("_id", .vId s.nextId) :: userRecord p)) "user" =
        getColl s.colls "user" ++ [("_id", .vId s.nextId) :: userRecord p]) ∧
    ((∃ u ∈ getColl s.colls "user",
        dGet u "email" = some (.vStr p.email)) →
      signup s p = (.error ⟨400, "Email already registered"⟩, s)) := by
  constructor
  · intro h
    exact ⟨signup_free_eq s p h, getColl_collInsert_self _ _ _⟩
  · intro h
    obtain ⟨w, hw⟩ := find_one_single_isSome h
    rw [signup, hw]

/-- C1 witness: on the empty store the signup succeeds as stated, and after
it a second signup with the same email (and different other fields) gets
the Conflict error. -/
theorem claim_C1_signup_witness :
    (∀ u ∈ getColl (Store.mk [] 0).colls "user",
      dGet u "email" ≠ some (.vStr "a@x.com")) ∧
    signup ⟨[], 0⟩ ⟨"Alice", "a@x.com", "h1", "s1"⟩ =
      (.ok [("id", .vStr "oid:0"), ("email", .vStr "a@x.com"),
            ("name", .vStr "Alice")],
       ⟨[("user", [[("_id", .vId 0), ("name", .vStr "Alice"),
                    ("email", .vStr "a@x.com"), ("password_hash", .vStr "h1"),
                    ("salt", .vStr "s1")]])], 1⟩) ∧
    signup ⟨[("user", [[("_id", .vId 0), ("name", .vStr "Alice"),
                        ("email", .vStr "a@x.com"),
                        ("password_hash", .vStr "h1"),
                        ("salt", .vStr "s1")]])], 1⟩
        ⟨"Bob", "a@x.com", "h2", "s2"⟩ =
      (.error ⟨400, "Email already registered"⟩,
       ⟨[("user", [[("_id", .vId 0), ("name", .vStr "Alice"),
                    ("email", .vStr "a@x.com"), ("password_hash", .vStr "h1"),
                    ("salt", .vStr "s1")]])], 1⟩) :=
  ⟨by decide,
   ((claim_C1_signup ⟨[], 0⟩ ⟨"Alice", "a@x.com", "h1", "s1"⟩).1
      (by decide)).1,
   (claim_C1_signup _ ⟨"Bob", "a@x.com", "h2", "s2"⟩).2
     ⟨[("_id", .vId 0), ("name", .vStr "Alice"), ("email", .vStr "a@x.com"),
       ("password_hash", .vStr "h1"), ("salt", .vStr "s1")],
      by decide, by decide⟩⟩

/-- C2: signin returns NotFound (404) when no User record has the email,
Unauthorized (401) when one exists but its stored `password_hash` is not
exactly the supplied value, and otherwise the stored identifier, email and
name; after a signup, signin with that email and hash returns the very
identifier the signup produced. -/
theorem claim_C2_signin (s : Store) (p : SignInPayload) :
    ((∀ u ∈ getColl s.colls "user",
        dGet u "email" ≠ some (.vStr p.email)) →
      signin s p = .error ⟨404, "User not found"⟩) ∧
    (∀ u, find_one s "user" [("email", .vStr p.email)] = some u →
      dGet u "password_hash" ≠ some (.vStr p.password_hash) →
      signin s p = .error ⟨401, "Invalid credentials"⟩) ∧
    (∀ u, find_one s "user" [("email", .vStr p.email)] = some u →
      dGet u "password_hash" = some (.vStr p.password_hash) →
      signin s p =
        .ok [("id", .vStr (pyStr ((dGet u "_id").getD .vNull))),
             ("email", (dGet u "email").getD .vNull),
             ("name", (dGet u "name").getD .vNull)]) ∧
    (∀ q : SignUpPayload,
      (∀ u ∈ getColl s.colls "user",
        dGet u "email" ≠ some (.vStr q.email)) →
      signup s q =
        (.ok [("id", .vStr (idString s.nextId)), ("email", .vStr q.email),
              ("name", .vStr q.name)],
         ⟨collInsert s.colls "user" (("_id", .vId s.nextId) :: userRecord q),
          s.nextId + 1⟩) ∧
      signin ⟨collInsert s.colls "user"
                (("_id", .vId s.nextId) :: userRecord q), s.nextId + 1⟩
          ⟨q.email, q.password_hash⟩ =
        .ok [("id", .vStr (idString s.nextId)), ("email", .vStr q.email),
             ("name", .vStr q.name)]) := by
  refine ⟨?_, ?_, ?_, ?_⟩
  · intro h
    rw [signin, find_one_single_none h]
  · intro u hu hne
    rw [signin, hu]
    exact if_pos hne
  · intro u hu heq
    rw [signin, hu]
    exact if_neg (fun hn => hn heq)
  · intro q hq
    refine ⟨signup_free_eq s q hq, ?_⟩
    have hm : matchesF (("_id", .vId s.nextId) :: userRecord q)
        [("email", .vStr q.email)] = true := by
      rw [matchesF_single]
      simp [userRecord, dGet]
    have hfo := find_one_insert (("_id", .vId s.nextId) :: userRecord q)
      (s.nextId + 1) (find_one_single_none hq) hm
    have hph : dGet (("_id", .vId s.nextId) :: userRecord q)
        "password_hash" = some (.vStr q.password_hash) := by
      simp [userRecord, dGet]
    simp only [signin, hfo]
    rw [if_neg (fun hn => hn hph)]
    simp [userRecord, dGet, pyStr]

/-- C2 witness: after a concrete signup, signin with the right hash returns
the signup's identifier, a wrong hash gets 401, and an unknown email 404. -/
theorem claim_C2_signin_witness :
    (signup ⟨[], 0⟩ ⟨"Alice", "a@x.com", "h1", "s1"⟩ =
      (.ok [("id", .vStr "oid:0"), ("email", .vStr "a@x.com"),
            ("name", .vStr "Alice")],
       ⟨[("user", [[("_id", .vId 0), ("name", .vStr "Alice"),
                    ("email", .vStr "a@x.com"), ("password_hash", .vStr "h1"),
                    ("salt", .vStr "s1")]])], 1⟩) ∧
     signin ⟨[("user", [[("_id", .vId 0), ("name", .vStr "Alice"),
                         ("email", .vStr "a@x.com"),
                         ("password_hash", .vStr "h1"),
                         ("salt", .vStr "s1")]])], 1⟩ ⟨"a@x.com", "h1"⟩ =
      .ok [("id", .vStr "oid:0"), ("email", .vStr "a@x.com"),
           ("name", .vStr "Alice")]) ∧
    signin ⟨[("user", [[("_id", .vId 0), ("name", .vStr "Alice"),
                        ("email", .vStr "a@x.com"),
                        ("password_hash", .vStr "h1"),
                        ("salt", .vStr "s1")]])], 1⟩ ⟨"a@x.com", "bad"⟩ =
      .error ⟨401, "Invalid credentials"⟩ ∧
    signin ⟨[("user", [[("_id", .vId 0), ("name", .vStr "Alice"),
                        ("email", .vStr "a@x.com"),
                        ("password_hash", .vStr "h1"),
                        ("salt", .vStr "s1")]])], 1⟩ ⟨"b@x.com", "h1"⟩ =
      .error ⟨404, "User not found"⟩ :=
  ⟨(claim_C2_signin ⟨[], 0⟩ ⟨"a@x.com", "h1"⟩).2.2.2
     ⟨"Alice", "a@x.com", "h1", "s1"⟩ (by decide),
   (claim_C2_signin _ ⟨"a@x.com", "bad"⟩).2.1
     [("_id", .vId 0), ("name", .vStr "Alice"), ("email", .vStr "a@x.com"),
      ("password_hash", .vStr "h1"), ("salt", .vStr "s1")]
     (by decide) (by decide),
   (claim_C2_signin _ ⟨"b@x.com", "h1"⟩).1 (by decide)⟩

/-- C10: when the stored user document found for the signin email has no
`password_hash` field, `.get` yields an absent value, which compares
unequal to every supplied hash string, so the handler answers Unauthorized
(401) instead of faulting. -/
theorem claim_C10_signin_missing_hash (s : Store) (p : SignInPayload)
    (u : Doc) (h : find_one s "user" [("email", .vStr p.email)] = some u)
    (hph : dGet u "password_hash" = none) :
    signin s p = .error ⟨401, "Invalid credentials"⟩ := by
  rw [signin, h]
  exact if_pos (by rw [hph]; exact fun hc => Option.noConfusion hc)

/-- C10 witness: a stored user document without a `password_hash` field
makes signin answer 401 for an arbitrary supplied hash. -/
theorem claim_C10_signin_missing_hash_witness :
    find_one ⟨[("user", [[("_id", .vId 0), ("name", .vStr "Alice"),
                          ("email", .vStr "a@x.com")]])], 1⟩ "user"
        [("email", .vStr "a@x.com")] =
      some [("_id", .vId 0), ("name", .vStr "Alice"),
            ("email", .vStr "a@x.com")] ∧
    dGet [("_id", .vId 0), ("name", .vStr "Alice"),
          ("email", .vStr "a@x.com")] "password_hash" = none ∧
    signin ⟨[("user", [[("_id", .vId 0), ("name", .vStr "Alice"),
                        ("email", .vStr "a@x.com")]])], 1⟩
        ⟨"a@x.com", "whatever"⟩ =
      .error ⟨401, "Invalid credentials"⟩ :=
  ⟨by decide, by decide,
   claim_C10_signin_missing_hash
     ⟨[("user", [[("_id", .vId 0), ("name", .vStr "Alice"),
                  ("email", .vStr "a@x.com")]])], 1⟩
     ⟨"a@x.com", "whatever"⟩
     [("_id", .vId 0), ("name", .vStr "Alice"), ("email", .vStr "a@x.com")]
     (by decide) (by decide)⟩

/-- C5: the blog detail handler returns the single BlogPost with the given
slug — serialized, regardless of its published status — and fails with
NotFound (404) when no BlogPost has that slug. -/
theorem claim_C5_get_post (s : Store) (slug : String) :
    ((∀ d ∈ getColl s.colls "blogpost",
        dGet d "slug" ≠ some (.vStr slug)) →
      get_post s slug = .error ⟨404, "Post not found"⟩) ∧
    (∀ d, find_one s "blogpost" [("slug", .vStr slug)] = some d →
      d ∈ getColl s.colls "blogpost" ∧ dGet d "slug" = some (.vStr slug) ∧
      get_post s slug = .ok (serialize_doc d)) ∧
    (∀ d, d ∈ getColl s.colls "blogpost" →
      dGet d "slug" = some (.vStr slug) →
      (∀ d' ∈ getColl s.colls "blogpost",
        dGet d' "slug" = some (.vStr slug) → d' = d) →
      get_post s slug = .ok (serialize_doc d)) := by
  refine ⟨?_, ?_, ?_⟩
  · intro h
    rw [get_post, find_one_single_none h]
  · intro d hfo
    obtain ⟨hmem, hmf⟩ := find_one_mem hfo
    rw [matchesF_single] at hmf
    refine ⟨hmem, by simpa using hmf, ?_⟩
    rw [get_post, hfo]
  · intro d hd hslug huniq
    obtain ⟨x, hx⟩ := find_one_single_isSome ⟨d, hd, hslug⟩
    obtain ⟨hxmem, hxm⟩ := find_one_mem hx
    rw [matchesF_single] at hxm
    have hxd : x = d := huniq x hxmem (by simpa using hxm)
    rw [get_post, hx, hxd]

/-- C5 witness: with one published and one unpublished post stored, the
detail handler returns the unpublished one for its slug (serialized), and
404 for an unknown slug. -/
theorem claim_C5_get_post_witness :
    get_post ⟨[("blogpost",
        [[("_id", .vId 0), ("slug", .vStr "a"), ("published", .vBool true),
          ("published_at", .vDatetime 5)],
         [("_id", .vId 1), ("slug", .vStr "b"),
          ("published", .vBool false), ("published_at", .vNull)]])], 2⟩
        "b" =
      .ok [("slug", .vStr "b"), ("published", .vBool false),
           ("published_at", .vNull), ("id", .vStr "oid:1")] ∧
    get_post ⟨[("blogpost",
        [[("_id", .vId 0), ("slug", .vStr "a"), ("published", .vBool true),
          ("published_at", .vDatetime 5)],
         [("_id", .vId 1), ("slug", .vStr "b"),
          ("published", .vBool false), ("published_at", .vNull)]])], 2⟩
        "nope" =
      .error ⟨404, "Post not found"⟩ :=
  ⟨by
    have := (claim_C5_get_post ⟨[("blogpost",
      [[("_id", .vId 0), ("slug", .vStr "a"), ("published", .vBool true),
        ("published_at", .vDatetime 5)],
       [("_id", .vId 1), ("slug", .vStr "b"),
        ("published", .vBool false), ("published_at", .vNull)]])], 2⟩
      "b").2.2
      [("_id", .vId 1), ("slug", .vStr "b"), ("published", .vBool false),
       ("published_at", .vNull)]
      (by decide) (by decide) (by decide)
    simpa using this,
   (claim_C5_get_post _ "nope").1 (by decide)⟩

/-- C7: the serialization helper is a pure function of the document (a Lean
function by construction): it drops the internal `_id` field, exposes it as
an `id` field in string form, converts every datetime-valued field to its
ISO-8601 string, and leaves every other field unchanged. -/
theorem claim_C7_serialize_doc (doc : Doc) :
    dGet (serialize_doc doc) "_id" = none ∧
    (∀ v, dGet doc "_id" = some v →
      dGet (serialize_doc doc) "id" = some (.vStr (pyStr v))) ∧
    (dGet doc "_id" = none →
      serialize_doc doc = doc.map (fun p => (p.1, convertValue p.2))) ∧
    (∀ k, k ≠ "_id" → k ≠ "id" →
      dGet (serialize_doc doc) k = (dGet doc k).map convertValue) ∧
    (∀ t, convertValue (.vDatetime t) = .vStr (isoString t)) ∧
    (∀ v, (∀ t, v ≠ .vDatetime t) → convertValue v = v) := by
  refine ⟨dGet_serialize_uid doc, fun v h => dGet_serialize_id h,
    fun h => serialize_eq_of_no_id h,
    fun k h1 h2 => dGet_serialize_of_ne doc h1 h2,
    fun t => rfl, ?_⟩
  intro v hv
  cases v with
  | vDatetime t => exact absurd rfl (hv t)
  | vNull => rfl
  | vStr s => rfl
  | vBool b => rfl
  | vId n => rfl
  | vList xs => rfl

/-- C7 witness: on a concrete document the helper renames `_id` to the
string `id`, turns the datetime into its ISO string, and keeps the rest. -/
theorem claim_C7_serialize_doc_witness :
    dGet [("_id", Value.vId 3), ("when", Value.vDatetime 12),
          ("x", Value.vNull)] "_id" = some (.vId 3) ∧
    dGet (serialize_doc [("_id", Value.vId 3), ("when", Value.vDatetime 12),
          ("x", Value.vNull)]) "id" = some (.vStr "oid:3") ∧
    dGet (serialize_doc [("_id", Value.vId 3), ("when", Value.vDatetime 12),
          ("x", Value.vNull)]) "when" = some (.vStr "iso:12") ∧
    dGet (serialize_doc [("_id", Value.vId 3), ("when", Value.vDatetime 12),
          ("x", Value.vNull)]) "x" = some .vNull :=
  ⟨by decide,
   by
    have := (claim_C7_serialize_doc
      [("_id", Value.vId 3), ("when", Value.vDatetime 12),
       ("x", Value.vNull)]).2.1 (.vId 3) (by decide)
    simpa using this,
   by
    have := (claim_C7_serialize_doc
      [("_id", Value.vId 3), ("when", Value.vDatetime 12),
       ("x", Value.vNull)]).2.2.2.1 "when" (by decide) (by decide)
    rw [this]
    decide,
   by
    have := (claim_C7_serialize_doc
      [("_id", Value.vId 3), ("when", Value.vDatetime 12),
       ("x", Value.vNull)]).2.2.2.1 "x" (by decide) (by decide)
    rw [this]
    decide⟩

theorem matchesF_post_slug (p : CreatePostPayload) (now n : Nat) :
    matchesF (("_id", .vId n) :: postRecord p now)
      [("slug", .vStr p.slug)] = true := by
  rw [matchesF_single]
  simp [postRecord, dGet]

theorem find_one_post_insert (s : Store) (p : CreatePostPayload) (now : Nat)
    (hfree : ∀ d ∈ getColl s.colls "blogpost",
      dGet d "slug" ≠ some (.vStr p.slug)) :
    find_one ⟨collInsert s.colls "blogpost"
        (("_id", .vId s.nextId) :: postRecord p now), s.nextId + 1⟩
      "blogpost" [("slug", .vStr p.slug)] =
      some (("_id", .vId s.nextId) :: postRecord p now) :=
  find_one_insert _ _ (find_one_single_none hfree) (matchesF_post_slug p now _)

theorem serialize_post_published_at_null (n : Nat) (p : CreatePostPayload)
    (now : Nat) (hpub : p.published = false) :
    dGet (serialize_doc (("_id", .vId n) :: postRecord p now))
      "published_at" = some .vNull := by
  rw [dGet_serialize_of_ne _ (by decide) (by decide)]
  simp [postRecord, dGet, hpub, convertValue]

/-- C6: after creating a post, creating another with the same slug returns
the Conflict error (400, "Slug already exists") with the store unchanged:
the first post stays retrievable at its slug with all its fields, and the
store still holds exactly one document with that slug. -/
theorem claim_C6_create_post_conflict (s : Store) (p1 p2 : CreatePostPayload)
    (t1 t2 : Nat) (hslug : p2.slug = p1.slug)
    (hfree : ∀ d ∈ getColl s.colls "blogpost",
      dGet d "slug" ≠ some (.vStr p1.slug)) :
    create_post s p1 t1 =
      (.ok [("id", .vStr (idString s.nextId)), ("slug", .vStr p1.slug)],
       ⟨collInsert s.colls "blogpost"
          (("_id", .vId s.nextId) :: postRecord p1 t1), s.nextId + 1⟩) ∧
    create_post ⟨collInsert s.colls "blogpost"
        (("_id", .vId s.nextId) :: postRecord p1 t1), s.nextId + 1⟩ p2 t2 =
      (.error ⟨400, "Slug already exists"⟩,
       ⟨collInsert s.colls "blogpost"
          (("_id", .vId s.nextId) :: postRecord p1 t1), s.nextId + 1⟩) ∧
    get_post ⟨collInsert s.colls "blogpost"
        (("_id", .vId s.nextId) :: postRecord p1 t1), s.nextId + 1⟩
        p1.slug =
      .ok (serialize_doc (("_id", .vId s.nextId) :: postRecord p1 t1)) ∧
    (getColl (collInsert s.colls "blogpost"
        (("_id", .vId s.nextId) :: postRecord p1 t1)) "blogpost").countP
      (fun d => dGet d "slug" == some (.vStr p1.slug)) = 1 := by
  have hfo := find_one_post_insert s p1 t1 hfree
  refine ⟨create_post_free_eq s p1 t1 hfree, ?_, ?_, ?_⟩
  · rw [create_post, hslug, hfo]
  · rw [get_post, hfo]
  · rw [getColl_collInsert_self, List.countP_append]
    have h0 : (getColl s.colls "blogpost").countP
        (fun d => dGet d "slug" == some (.vStr p1.slug)) = 0 := by
      rw [List.countP_eq_zero]
      intro d hd
      exact beq_eq_false_iff_ne.mpr (hfree d hd) ▸ Bool.false_ne_true
    rw [h0]
    have h1 : (dGet (("_id", .vId s.nextId) :: postRecord p1 t1) "slug"
        == some (.vStr p1.slug)) = true := by
      simp [postRecord, dGet]
    simp [h1]

/-- C6 witness: creating slug "hello" then another "hello" gets Conflict,
the store keeps its single "hello" document, and the first post is still
served unchanged at GET /blog/hello. -/
theorem claim_C6_create_post_conflict_witness :
    create_post ⟨[], 0⟩ ⟨"A", "hello", none, "c", "x", none, true⟩ 5 =
      (.ok [("id", .vStr "oid:0"), ("slug", .vStr "hello")],
       ⟨[("blogpost",
          [[("_id", .vId 0), ("title", .vStr "A"), ("slug", .vStr "hello"),
            ("excerpt", .vNull), ("content", .vStr "c"),
            ("author", .vStr "x"), ("tags", .vList []),
            ("published", .vBool true),
            ("published_at", .vDatetime 5)]])], 1⟩) ∧
    create_post ⟨[("blogpost",
        [[("_id", .vId 0), ("title", .vStr "A"), ("slug", .vStr "hello"),
          ("excerpt", .vNull), ("content", .vStr "c"), ("author", .vStr "x"),
          ("tags", .vList []), ("published", .vBool true),
          ("published_at", .vDatetime 5)]])], 1⟩
        ⟨"B", "hello", none, "c2", "y", none, false⟩ 9 =
      (.error ⟨400, "Slug already exists"⟩,
       ⟨[("blogpost",
          [[("_id", .vId 0), ("title", .vStr "A"), ("slug", .vStr "hello"),
            ("excerpt", .vNull), ("content", .vStr "c"),
            ("author", .vStr "x"), ("tags", .vList []),
            ("published", .vBool true),
            ("published_at", .vDatetime 5)]])], 1⟩) := by
  have h := claim_C6_create_post_conflict ⟨[], 0⟩
    ⟨"A", "hello", none, "c", "x", none, true⟩
    ⟨"B", "hello", none, "c2", "y", none, false⟩ 5 9 rfl (by decide)
  exact ⟨h.1, h.2.1⟩

/-- C3: `published_at` in the record built by the blog create handler is the
current time exactly when the `published` flag is true; a post created with
`published = false` appears in no GET /blog listing entry (no listed record
carries its slug) yet is retrievable via GET /blog/{slug}, and its
`published_at` carries no timestamp (it is the null value).  `hstr` states
the invariant that stored slugs are strings, which holds of every document
this system creates. -/
theorem claim_C3_unpublished_post (s : Store) (p : CreatePostPayload)
    (now : Nat)
    (hfree : ∀ d ∈ getColl s.colls "blogpost",
      dGet d "slug" ≠ some (.vStr p.slug))
    (hstr : ∀ d ∈ getColl s.colls "blogpost", ∀ v,
      dGet d "slug" = some v → ∃ str, v = .vStr str) :
    (dGet (postRecord p now) "published_at" = some (.vDatetime now) ↔
      p.published = true) ∧
    create_post s p now =
      (.ok [("id", .vStr (idString s.nextId)), ("slug", .vStr p.slug)],
       ⟨collInsert s.colls "blogpost"
          (("_id", .vId s.nextId) :: postRecord p now), s.nextId + 1⟩) ∧
    (p.published = false →
      dGet (postRecord p now) "published_at" = some .vNull ∧
      (∀ r ∈ list_posts ⟨collInsert s.colls "blogpost"
          (("_id", .vId s.nextId) :: postRecord p now), s.nextId + 1⟩,
        dGet r "slug" ≠ some (.vStr p.slug)) ∧
      get_post ⟨collInsert s.colls "blogpost"
          (("_id", .vId s.nextId) :: postRecord p now), s.nextId + 1⟩
          p.slug =
        .ok (serialize_doc (("_id", .vId s.nextId) :: postRecord p now)) ∧
      dGet (serialize_doc (("_id", .vId s.nextId) :: postRecord p now))
          "published_at" = some .vNull) := by
  refine ⟨?_, create_post_free_eq s p now hfree, ?_⟩
  · cases hp : p.published <;> simp [postRecord, dGet, hp]
  · intro hpub
    refine ⟨by simp [postRecord, dGet, hpub], ?_,
      by rw [get_post, find_one_post_insert s p now hfree],
      serialize_post_published_at_null _ p now hpub⟩
    intro r hr
    rw [list_posts] at hr
    obtain ⟨q, hq, rfl⟩ := List.mem_map.mp hr
    have hq' : q ∈ get_documents
        ⟨collInsert s.colls "blogpost"
          (("_id", .vId s.nextId) :: postRecord p now), s.nextId + 1⟩
        "blogpost" [("published", .vBool true)] :=
      (List.perm_insertionSort _ _).mem_iff.mp hq
    rw [get_documents] at hq'
    have hmem := (List.mem_filter.mp hq').1
    have hmatch := (List.mem_filter.mp hq').2
    simp only [getColl_collInsert_self] at hmem
    rcases List.mem_append.mp hmem with hold | hnew
    · intro hcontra
      rw [dGet_serialize_of_ne q (by decide) (by decide)] at hcontra
      cases hv : dGet q "slug" with
      | none => rw [hv] at hcontra; simp at hcontra
      | some v =>
        obtain ⟨str, rfl⟩ := hstr q hold v hv
        rw [hv] at hcontra
        simp [convertValue] at hcontra
        exact hfree q hold (hcontra ▸ hv)
    · exfalso
      have hq1 : q = ("_id", .vId s.nextId) :: postRecord p now := by
        simpa using hnew
      rw [matchesF_single, hq1] at hmatch
      simp [postRecord, dGet, hpub] at hmatch

/-- C3 witness: creating an unpublished post next to a published one — it
is missing from the listing, retrievable at its slug, and its
`published_at` is null. -/
theorem claim_C3_unpublished_post_witness :
    (∀ r ∈ list_posts ⟨collInsert
        [("blogpost", [[("_id", .vId 0), ("title", .vStr "A"),
          ("slug", .vStr "a"), ("excerpt", .vNull), ("content", .vStr "c"),
          ("author", .vStr "x"), ("tags", .vList []),
          ("published", .vBool true), ("published_at", .vDatetime 5)]])]
        "blogpost"
        (("_id", .vId 1) :: postRecord ⟨"B", "b", none, "c2", "y", none,
          false⟩ 9), 2⟩,
      dGet r "slug" ≠ some (.vStr "b")) ∧
    get_post ⟨collInsert
        [("blogpost", [[("_id", .vId 0), ("title", .vStr "A"),
          ("slug", .vStr "a"), ("excerpt", .vNull), ("content", .vStr "c"),
          ("author", .vStr "x"), ("tags", .vList []),
          ("published", .vBool true), ("published_at", .vDatetime 5)]])]
        "blogpost"
        (("_id", .vId 1) :: postRecord ⟨"B", "b", none, "c2", "y", none,
          false⟩ 9), 2⟩ "b" =
      .ok (serialize_doc (("_id", .vId 1) :: postRecord
        ⟨"B", "b", none, "c2", "y", none, false⟩ 9)) ∧
    dGet (serialize_doc (("_id", .vId 1) :: postRecord
        ⟨"B", "b", none, "c2", "y", none, false⟩ 9)) "published_at" =
      some .vNull := by
  have h := (claim_C3_unpublished_post
    ⟨[("blogpost", [[("_id", .vId 0), ("title", .vStr "A"),
        ("slug", .vStr "a"), ("excerpt", .vNull), ("content", .vStr "c"),
        ("author", .vStr "x"), ("tags", .vList []),
        ("published", .vBool true), ("published_at", .vDatetime 5)]])], 1⟩
    ⟨"B", "b", none, "c2", "y", none, false⟩ 9
    (by decide)
    (by
      intro d hd v hv
      simp [getColl] at hd
      subst hd
      simp [dGet] at hv
      exact ⟨"a", hv.symm⟩)).2.2 rfl
  exact ⟨h.2.1, h.2.2.1, h.2.2.2⟩

/-- C9: every BlogPost record the create handler builds carries a
`published_at` field — a timestamp when `published` is true and an explicit
null (the field is present, not missing) when false — and the serialized
detail response of an unpublished post therefore contains `published_at`
with the null value. -/
theorem claim_C9_published_at_always_present (s : Store)
    (p : CreatePostPayload) (now : Nat)
    (hfree : ∀ d ∈ getColl s.colls "blogpost",
      dGet d "slug" ≠ some (.vStr p.slug)) :
    dGet (postRecord p now) "published_at" =
      some (if p.published then Value.vDatetime now else Value.vNull) ∧
    dGet (postRecord p now) "published_at" ≠ none ∧
    create_post s p now =
      (.ok [("id", .vStr (idString s.nextId)), ("slug", .vStr p.slug)],
       ⟨collInsert s.colls "blogpost"
          (("_id", .vId s.nextId) :: postRecord p now), s.nextId + 1⟩) ∧
    (p.published = false →
      get_post ⟨collInsert s.colls "blogpost"
          (("_id", .vId s.nextId) :: postRecord p now), s.nextId + 1⟩
          p.slug =
        .ok (serialize_doc (("_id", .vId s.nextId) :: postRecord p now)) ∧
      dGet (serialize_doc (("_id", .vId s.nextId) :: postRecord p now))
          "published_at" = some .vNull) := by
  refine ⟨by simp [postRecord, dGet], by simp [postRecord, dGet],
    create_post_free_eq s p now hfree, ?_⟩
  intro hpub
  exact ⟨by rw [get_post, find_one_post_insert s p now hfree],
    serialize_post_published_at_null _ p now hpub⟩

/-- C9 witness: a concrete unpublished post's stored record and serialized
detail response both contain `published_at` with the null value. -/
theorem claim_C9_published_at_always_present_witness :
    dGet (postRecord ⟨"B", "b", none, "c2", "y", none, false⟩ 9)
      "published_at" = some .vNull ∧
    get_post ⟨collInsert [] "blogpost"
        (("_id", .vId 0) :: postRecord ⟨"B", "b", none, "c2", "y", none,
          false⟩ 9), 1⟩ "b" =
      .ok (serialize_doc (("_id", .vId 0) :: postRecord
        ⟨"B", "b", none, "c2", "y", none, false⟩ 9)) ∧
    dGet (serialize_doc (("_id", .vId 0) :: postRecord
        ⟨"B", "b", none, "c2", "y", none, false⟩ 9)) "published_at" =
      some .vNull := by
  have h := claim_C9_published_at_always_present ⟨[], 0⟩
    ⟨"B", "b", none, "c2", "y", none, false⟩ 9 (by decide)
  exact ⟨by decide, (h.2.2.2 rfl).1, (h.2.2.2 rfl).2⟩

/-- C4: the blog list handler returns exactly the serialized BlogPost
records whose `published` field is true, in an order that is
non-increasing in the sort key — `published_at`, falling back to
`created_at` when `published_at` is absent or null.  The hypothesis
restricts attention to stores where every listed record has a datetime
key, the only regime in which the runtime comparison is defined. -/
theorem claim_C4_list_posts (s : Store)
    (hkeys : ∀ d ∈ get_documents s "blogpost" [("published", .vBool true)],
      ∃ t, sortKey d = .vDatetime t) :
    ∃ l : List Doc,
      list_posts s = l.map serialize_doc ∧
      l.Perm (get_documents s "blogpost" [("published", .vBool true)]) ∧
      l.Pairwise (fun a b => keyTime b ≤ keyTime a) ∧
      l.Pairwise (fun a b => ∃ ta tb, sortKey a = .vDatetime ta ∧
        sortKey b = .vDatetime tb ∧ tb ≤ ta) ∧
      (∀ d, d ∈ get_documents s "blogpost" [("published", .vBool true)] ↔
        d ∈ getColl s.colls "blogpost" ∧
        dGet d "published" = some (.vBool true)) ∧
      (∀ d t, dGet d "published_at" = some (.vDatetime t) →
        sortKey d = .vDatetime t ∧ keyTime d = t) ∧
      (∀ d, dGet d "published_at" = none ∨
          dGet d "published_at" = some .vNull →
        sortKey d = (dGet d "created_at").getD .vNull) := by
  haveI hTot : IsTotal Doc (fun a b => keyTime b ≤ keyTime a) :=
    ⟨fun a b => Nat.le_total (keyTime b) (keyTime a)⟩
  haveI hTrans : IsTrans Doc (fun a b => keyTime b ≤ keyTime a) :=
    ⟨fun a b c hab hbc => Nat.le_trans hbc hab⟩
  have hsorted := List.sorted_insertionSort
    (fun a b => keyTime b ≤ keyTime a)
    (get_documents s "blogpost" [("published", .vBool true)])
  refine ⟨(get_documents s "blogpost"
      [("published", .vBool true)]).insertionSort
      (fun a b => keyTime b ≤ keyTime a),
    rfl, List.perm_insertionSort _ _, hsorted, ?_, ?_, ?_, ?_⟩
  · refine List.Pairwise.imp_of_mem ?_ hsorted
    intro a b ha hb hr
    obtain ⟨ta, hta⟩ := hkeys a ((List.perm_insertionSort _ _).mem_iff.mp ha)
    obtain ⟨tb, htb⟩ := hkeys b ((List.perm_insertionSort _ _).mem_iff.mp hb)
    refine ⟨ta, tb, hta, htb, ?_⟩
    have hka : keyTime a = ta := by simp [keyTime, hta]
    have hkb : keyTime b = tb := by simp [keyTime, htb]
    rw [← hka, ← hkb]
    exact hr
  · intro d
    simp [get_documents, List.mem_filter, matchesF_single]
  · intro d t h
    constructor
    · simp [sortKey, h, pyOr, pyFalsy]
    · simp [keyTime, sortKey, h, pyOr, pyFalsy]
  · intro d h
    rcases h with h | h <;> simp [sortKey, h, pyOr, pyFalsy]

/-- C4 witness: with posts published at ticks 5 and 7 and one unpublished
post stored, the conclusion holds at that store and the listing is the two
published posts serialized, newest first. -/
theorem claim_C4_list_posts_witness :
    (∃ l : List Doc,
      list_posts ⟨[("blogpost",
        [[("_id", .vId 0), ("slug", .vStr "a"), ("published", .vBool true),
          ("published_at", .vDatetime 5)],
         [("_id", .vId 1), ("slug", .vStr "b"), ("published", .vBool true),
          ("published_at", .vDatetime 7)],
         [("_id", .vId 2), ("slug", .vStr "c"),
          ("published", .vBool false),
          ("published_at", .vNull)]])], 3⟩ = l.map serialize_doc ∧
      l.Perm (get_documents ⟨[("blogpost",
        [[("_id", .vId 0), ("slug", .vStr "a"), ("published", .vBool true),
          ("published_at", .vDatetime 5)],
         [("_id", .vId 1), ("slug", .vStr "b"), ("published", .vBool true),
          ("published_at", .vDatetime 7)],
         [("_id", .vId 2), ("slug", .vStr "c"),
          ("published", .vBool false),
          ("published_at", .vNull)]])], 3⟩ "blogpost"
        [("published", .vBool true)]) ∧
      l.Pairwise (fun a b => keyTime b ≤ keyTime a) ∧
      l.Pairwise (fun a b => ∃ ta tb, sortKey a = .vDatetime ta ∧
        sortKey b = .vDatetime tb ∧ tb ≤ ta) ∧
      (∀ d, d ∈ get_documents ⟨[("blogpost",
        [[("_id", .vId 0), ("slug", .vStr "a"), ("published", .vBool true),
          ("published_at", .vDatetime 5)],
         [("_id", .vId 1), ("slug", .vStr "b"), ("published", .vBool true),
          ("published_at", .vDatetime 7)],
         [("_id", .vId 2), ("slug", .vStr "c"),
          ("published", .vBool false),
          ("published_at", .vNull)]])], 3⟩ "blogpost"
        [("published", .vBool true)] ↔
        d ∈ getColl [("blogpost",
        [[("_id", .vId 0), ("slug", .vStr "a"), ("published", .vBool true),
          ("published_at", .vDatetime 5)],
         [("_id", .vId 1), ("slug", .vStr "b"), ("published", .vBool true),
          ("published_at", .vDatetime 7)],
         [("_id", .vId 2), ("slug", .vStr "c"),
          ("published", .vBool false),
          ("published_at", .vNull)]])] "blogpost" ∧
        dGet d "published" = some (.vBool true)) ∧
      (∀ d t, dGet d "published_at" = some (.vDatetime t) →
        sortKey d = .vDatetime t ∧ keyTime d = t) ∧
      (∀ d, dGet d "published_at" = none ∨
          dGet d "published_at" = some .vNull →
        sortKey d = (dGet d "created_at").getD .vNull)) ∧
    list_posts ⟨[("blogpost",
      [[("_id", .vId 0), ("slug", .vStr "a"), ("published", .vBool true),
        ("published_at", .vDatetime 5)],
       [("_id", .vId 1), ("slug", .vStr "b"), ("published", .vBool true),
        ("published_at", .vDatetime 7)],
       [("_id", .vId 2), ("slug", .vStr "c"), ("published", .vBool false),
        ("published_at", .vNull)]])], 3⟩ =
      [[("slug", .vStr "b"), ("published", .vBool true),
        ("published_at", .vStr "iso:7"), ("id", .vStr "oid:1")],
       [("slug", .vStr "a"), ("published", .vBool true),
        ("published_at", .vStr "iso:5"), ("id", .vStr "oid:0")]] := by
  constructor
  · refine claim_C4_list_posts _ ?_
    intro d hd
    simp [get_documents, getColl, matchesF_single] at hd
    rcases hd with ⟨hd, hpub⟩
    rcases hd with h | h | h <;> subst h
    · exact ⟨5, by decide⟩
    · exact ⟨7, by decide⟩
    · simp [dGet] at hpub
  · decide

/-- C8: the health handler is total over every store condition — no
connection object, connected with a healthy listing, or a failing listing —
always producing a diagnostic object with the static backend marker, at
most the first ten collection names, and any query failure folded into a
truncated diagnostic string rather than propagated. -/
theorem claim_C8_test_database (c : DbConn) (env : Env) :
    (test_database c env).backend = "✅ Running" ∧
    (test_database c env).collections.length ≤ 10 ∧
    (∀ nm names, c = .conn nm (.ok names) →
      (test_database c env).collections = names.take 10 ∧
      (test_database c env).database = "✅ Connected & Working") ∧
    (∀ nm e, c = .conn nm (.error e) →
      (test_database c env).database =
        ("⚠️  Connected but Error: " ++ e.take 50) ∧
      (test_database c env).collections = []) ∧
    (c = .noConn →
      (test_database c env).database = "⚠️  Available but not initialized") ∧
    (test_database c env).database_url =
      (if env.database_url.isSome then "✅ Set" else "❌ Not Set") ∧
    (test_database c env).database_name =
      (if env.database_name.isSome then "✅ Set" else "❌ Not Set") := by
  refine ⟨?_, ?_, ?_, ?_, ?_, ?_, ?_⟩
  · cases c with
    | noConn => rfl
    | conn nm res => cases res <;> rfl
  · cases c with
    | noConn => simp [test_database]
    | conn nm res =>
      cases res with
      | ok names =>
        simp only [test_database]
        exact List.length_take_le 10 names
      | error e => simp [test_database]
  · intro nm names hc
    subst hc
    exact ⟨rfl, rfl⟩
  · intro nm e hc
    subst hc
    exact ⟨rfl, rfl⟩
  · intro hc
    subst hc
    rfl
  · cases c with
    | noConn => rfl
    | conn nm res => cases res <;> rfl
  · cases c with
    | noConn => rfl
    | conn nm res => cases res <;> rfl

/-- C8 witness: a connection whose collection listing fails with a long
message yields the truncated diagnostic, a healthy connection with twelve
collections reports only the first ten, and a missing connection still
answers. -/
theorem claim_C8_test_database_witness :
    (test_database (.conn none (.error (String.mk
        (List.replicate 60 'z')))) ⟨none, none⟩).database =
      ("⚠️  Connected but Error: " ++
        (String.mk (List.replicate 60 'z')).take 50) ∧
    (test_database (.conn (some "db") (.ok ["c01", "c02", "c03", "c04",
        "c05", "c06", "c07", "c08", "c09", "c10", "c11", "c12"]))
        ⟨some "u", none⟩).collections =
      ["c01", "c02", "c03", "c04", "c05", "c06", "c07", "c08", "c09",
       "c10"] ∧
    (test_database .noConn ⟨none, some "n"⟩).database =
      "⚠️  Available but not initialized" ∧
    (test_database .noConn ⟨none, some "n"⟩).backend = "✅ Running" :=
  ⟨((claim_C8_test_database (.conn none (.error (String.mk
      (List.replicate 60 'z')))) ⟨none, none⟩).2.2.2.1 none
      (String.mk (List.replicate 60 'z')) rfl).1,
   by
    have := ((claim_C8_test_database (.conn (some "db") (.ok ["c01", "c02",
      "c03", "c04", "c05", "c06", "c07", "c08", "c09", "c10", "c11",
      "c12"])) ⟨some "u", none⟩).2.2.1 (some "db") ["c01", "c02", "c03",
      "c04", "c05", "c06", "c07", "c08", "c09", "c10", "c11", "c12"]
      rfl).1
    rw [this]
    decide,
   (claim_C8_test_database .noConn ⟨none, some "n"⟩).2.2.2.2.1 rfl,
   (claim_C8_test_database .noConn ⟨none, some "n"⟩).1⟩
